import Mathlib

/-
Verification of `src/arf_twistCovariance/pose_fusion/src/pose_fusion_node.cpp`.

Shallow embedding conventions:
- C++ `double` arithmetic is modelled by exact rationals (`ℚ`); the claims are
  about the algebraic formulas the code computes.
- The `geometry_msgs` message types are modelled as structures with the same
  field layout; a `double[36]` covariance is a function `Fin 36 → ℚ`.
- `rclcpp` node member state becomes an explicit `NodeState` record; each
  subscription callback is a function `NodeState → ℚ → Msg → NodeState × List NodeOutput`,
  where the `ℚ` argument is the clock reading `this->now()` at the time the
  callback runs and the output list collects the `publish`/`sendTransform` calls.
-/

namespace geometry_msgs

structure Point where
  x : ℚ
  y : ℚ
  z : ℚ
  deriving DecidableEq, Repr

structure Quaternion where
  x : ℚ
  y : ℚ
  z : ℚ
  w : ℚ
  deriving DecidableEq, Repr

structure Vector3 where
  x : ℚ
  y : ℚ
  z : ℚ
  deriving DecidableEq, Repr

structure Header where
  stamp : ℚ
  frame_id : String
  deriving DecidableEq, Repr

structure Pose where
  position : Point
  orientation : Quaternion
  deriving DecidableEq, Repr

structure PoseWithCovariance where
  pose : Pose
  covariance : Fin 36 → ℚ

structure PoseWithCovarianceStamped where
  header : Header
  pose : PoseWithCovariance

structure Twist where
  linear : Vector3
  angular : Vector3
  deriving DecidableEq, Repr

structure TwistWithCovariance where
  twist : Twist
  covariance : Fin 36 → ℚ

structure TwistWithCovarianceStamped where
  header : Header
  twist : TwistWithCovariance

structure Transform where
  translation : Vector3
  rotation : Quaternion
  deriving DecidableEq, Repr

structure TransformStamped where
  header : Header
  child_frame_id : String
  transform : Transform

end geometry_msgs

namespace PoseFusionNode

open geometry_msgs

/-- The mutable member state of `PoseFusionNode`: the four cached message
pointers (`nullptr` modelled as `none`) and the four weight members. -/
structure NodeState where
  last_lidar_msg_ : Option PoseWithCovarianceStamped
  last_gnss_msg_ : Option PoseWithCovarianceStamped
  last_ekf_twist_msg_ : Option TwistWithCovarianceStamped
  last_filter_twist_msg_ : Option TwistWithCovarianceStamped
  lidar_weight_ : ℚ
  gnss_weight_ : ℚ
  ekf_twist_weight_ : ℚ
  filter_twist_weight_ : ℚ

/-- The state right after the constructor ran: all four cached pointers are
null.  The weights are parameters so that claims can quantify over them; the
source initializes each of the four to `0.5`. -/
def initState (w1 w2 w3 w4 : ℚ) : NodeState :=
  { last_lidar_msg_ := none
  , last_gnss_msg_ := none
  , last_ekf_twist_msg_ := none
  , last_filter_twist_msg_ := none
  , lidar_weight_ := w1
  , gnss_weight_ := w2
  , ekf_twist_weight_ := w3
  , filter_twist_weight_ := w4 }

/-- `PoseFusionNode::fusePoses`, lines 85-111.  The function reads
`last_lidar_msg_` and `last_gnss_msg_` (non-null at every call site, so they
are passed here as plain values), the weight members, and `this->now()`
(the `now` argument), and builds the fused
`geometry_msgs::msg::PoseWithCovarianceStamped`. -/
def fusePoses (lidar_weight_ gnss_weight_ now : ℚ)
    (last_lidar_msg_ last_gnss_msg_ : PoseWithCovarianceStamped) :
    PoseWithCovarianceStamped :=
  { header := { stamp := now, frame_id := "map" }
  , pose :=
    { pose :=
      { position :=
        { x := lidar_weight_ * last_lidar_msg_.pose.pose.position.x +
               gnss_weight_ * last_gnss_msg_.pose.pose.position.x
        , y := lidar_weight_ * last_lidar_msg_.pose.pose.position.y +
               gnss_weight_ * last_gnss_msg_.pose.pose.position.y
        , z := lidar_weight_ * last_lidar_msg_.pose.pose.position.z +
               gnss_weight_ * last_gnss_msg_.pose.pose.position.z }
      , orientation := last_lidar_msg_.pose.pose.orientation }
    , covariance := fun i =>
        lidar_weight_ * last_lidar_msg_.pose.covariance i +
        gnss_weight_ * last_gnss_msg_.pose.covariance i } }

/-- `PoseFusionNode::fuseTwists`, lines 113-137: linear components and angular
x, y are set to `0.0`; angular z and the 36 covariance entries are the weighted
blends of the cached EKF and filter twist messages. -/
def fuseTwists (ekf_twist_weight_ filter_twist_weight_ now : ℚ)
    (last_ekf_twist_msg_ last_filter_twist_msg_ : TwistWithCovarianceStamped) :
    TwistWithCovarianceStamped :=
  { header := { stamp := now, frame_id := "map" }
  , twist :=
    { twist :=
      { linear := { x := 0, y := 0, z := 0 }
      , angular :=
        { x := 0
        , y := 0
        , z := ekf_twist_weight_ * last_ekf_twist_msg_.twist.twist.angular.z +
               filter_twist_weight_ * last_filter_twist_msg_.twist.twist.angular.z } }
    , covariance := fun i =>
        ekf_twist_weight_ * last_ekf_twist_msg_.twist.covariance i +
        filter_twist_weight_ * last_filter_twist_msg_.twist.covariance i } }

/-- `PoseFusionNode::broadcastTransform`, lines 139-158: builds the
`TransformStamped` handed to the broadcaster from a fused pose.  Frame names
are the string constants from the source. -/
def broadcastTransform (fused_pose : PoseWithCovarianceStamped) : TransformStamped :=
  { header := { stamp := fused_pose.header.stamp, frame_id := "map" }
  , child_frame_id := "base_link"
  , transform :=
    { translation :=
      { x := fused_pose.pose.pose.position.x
      , y := fused_pose.pose.pose.position.y
      , z := fused_pose.pose.pose.position.z }
    , rotation :=
      { x := fused_pose.pose.pose.orientation.x
      , y := fused_pose.pose.pose.orientation.y
      , z := fused_pose.pose.pose.orientation.z
      , w := fused_pose.pose.pose.orientation.w } } }

/-- One `publish` or `sendTransform` call observed on the node's outputs:
`final_pose_pub_->publish`, `fused_twist_pub_->publish`, or
`tf_broadcaster_->sendTransform`. -/
inductive NodeOutput where
  | finalPose (msg : PoseWithCovarianceStamped)
  | fusedTwist (msg : TwistWithCovarianceStamped)
  | tfTransform (msg : TransformStamped)

/-- `PoseFusionNode::lidarPoseCallback`, lines 45-52: cache the message, then
fuse (publishing the fused pose and broadcasting its transform) iff
`last_gnss_msg_` is non-null. -/
def lidarPoseCallback (s : NodeState) (now : ℚ)
    (lidar_msg : PoseWithCovarianceStamped) : NodeState × List NodeOutput :=
  let s' : NodeState := { s with last_lidar_msg_ := some lidar_msg }
  match s'.last_gnss_msg_ with
  | some gnss_msg =>
      let fused_pose := fusePoses s'.lidar_weight_ s'.gnss_weight_ now lidar_msg gnss_msg
      (s', [NodeOutput.finalPose fused_pose,
            NodeOutput.tfTransform (broadcastTransform fused_pose)])
  | none => (s', [])

/-- `PoseFusionNode::gnssPoseCallback`, lines 54-62. -/
def gnssPoseCallback (s : NodeState) (now : ℚ)
    (gnss_msg : PoseWithCovarianceStamped) : NodeState × List NodeOutput :=
  let s' : NodeState := { s with last_gnss_msg_ := some gnss_msg }
  match s'.last_lidar_msg_ with
  | some lidar_msg =>
      let fused_pose := fusePoses s'.lidar_weight_ s'.gnss_weight_ now lidar_msg gnss_msg
      (s', [NodeOutput.finalPose fused_pose,
            NodeOutput.tfTransform (broadcastTransform fused_pose)])
  | none => (s', [])

/-- `PoseFusionNode::ekfTwistCallback`, lines 65-73. -/
def ekfTwistCallback (s : NodeState) (now : ℚ)
    (ekf_twist_msg : TwistWithCovarianceStamped) : NodeState × List NodeOutput :=
  let s' : NodeState := { s with last_ekf_twist_msg_ := some ekf_twist_msg }
  match s'.last_filter_twist_msg_ with
  | some filter_twist_msg =>
      let fused_twist := fuseTwists s'.ekf_twist_weight_ s'.filter_twist_weight_ now
        ekf_twist_msg filter_twist_msg
      (s', [NodeOutput.fusedTwist fused_twist])
  | none => (s', [])

/-- `PoseFusionNode::filterTwistCallback`, lines 75-83. -/
def filterTwistCallback (s : NodeState) (now : ℚ)
    (filter_twist_msg : TwistWithCovarianceStamped) : NodeState × List NodeOutput :=
  let s' : NodeState := { s with last_filter_twist_msg_ := some filter_twist_msg }
  match s'.last_ekf_twist_msg_ with
  | some ekf_twist_msg =>
      let fused_twist := fuseTwists s'.ekf_twist_weight_ s'.filter_twist_weight_ now
        ekf_twist_msg filter_twist_msg
      (s', [NodeOutput.fusedTwist fused_twist])
  | none => (s', [])

/-- An inbound message delivery: which subscription fired and with what
message. -/
inductive Event where
  | lidarPose (msg : PoseWithCovarianceStamped)
  | gnssPose (msg : PoseWithCovarianceStamped)
  | ekfTwist (msg : TwistWithCovarianceStamped)
  | filterTwist (msg : TwistWithCovarianceStamped)

def Event.isLidarPose : Event → Bool
  | .lidarPose _ => true
  | _ => false

def Event.isGnssPose : Event → Bool
  | .gnssPose _ => true
  | _ => false

def Event.isEkfTwist : Event → Bool
  | .ekfTwist _ => true
  | _ => false

def Event.isFilterTwist : Event → Bool
  | .filterTwist _ => true
  | _ => false

/-- Arrival on either role of the position fusion pair. -/
def Event.isPosePairEvent (e : Event) : Bool :=
  e.isLidarPose || e.isGnssPose

/-- Arrival on either role of the rate fusion pair. -/
def Event.isTwistPairEvent (e : Event) : Bool :=
  e.isEkfTwist || e.isFilterTwist

def NodeOutput.isFinalPose : NodeOutput → Bool
  | .finalPose _ => true
  | _ => false

def NodeOutput.isFusedTwist : NodeOutput → Bool
  | .fusedTwist _ => true
  | _ => false

/-- Output belonging to the position fusion pair: the fused pose publication or
the transform broadcast it triggers. -/
def NodeOutput.isPosePairOutput : NodeOutput → Bool
  | .finalPose _ => true
  | .tfTransform _ => true
  | .fusedTwist _ => false

/-- Output belonging to the rate fusion pair. -/
def NodeOutput.isTwistPairOutput : NodeOutput → Bool
  | .fusedTwist _ => true
  | _ => false

/-- Dispatch one inbound delivery to its callback, as the executor does. -/
def step (s : NodeState) (now : ℚ) : Event → NodeState × List NodeOutput
  | .lidarPose m => lidarPoseCallback s now m
  | .gnssPose m => gnssPoseCallback s now m
  | .ekfTwist m => ekfTwistCallback s now m
  | .filterTwist m => filterTwistCallback s now m

/-- Run a sequence of timestamped deliveries `(now, event)` through the node,
collecting all outputs in order. -/
def runEvents (s : NodeState) : List (ℚ × Event) → NodeState × List NodeOutput
  | [] => (s, [])
  | (t, e) :: rest =>
      let r := step s t e
      let r' := runEvents r.1 rest
      (r'.1, r.2 ++ r'.2)

/-- A concrete position sample with position (1,0,0), used to instantiate
theorems at concrete inputs. -/
def exPoseA : PoseWithCovarianceStamped :=
  { header := { stamp := 0, frame_id := "map" }
  , pose :=
    { pose := { position := ⟨1, 0, 0⟩, orientation := ⟨0, 0, 0, 1⟩ }
    , covariance := fun _ => 0 } }

/-- A concrete position sample with position (3,0,0). -/
def exPoseB : PoseWithCovarianceStamped :=
  { header := { stamp := 0, frame_id := "map" }
  , pose :=
    { pose := { position := ⟨3, 0, 0⟩, orientation := ⟨0, 0, 1, 0⟩ }
    , covariance := fun _ => 0 } }

/-- A concrete rate sample with angular z rate 1. -/
def exTwistA : TwistWithCovarianceStamped :=
  { header := { stamp := 0, frame_id := "map" }
  , twist :=
    { twist := { linear := ⟨0, 0, 0⟩, angular := ⟨0, 0, 1⟩ }
    , covariance := fun _ => 0 } }

/-- A concrete rate sample with angular z rate 3. -/
def exTwistB : TwistWithCovarianceStamped :=
  { header := { stamp := 0, frame_id := "map" }
  , twist :=
    { twist := { linear := ⟨0, 0, 0⟩, angular := ⟨0, 0, 3⟩ }
    , covariance := fun _ => 0 } }

/-- A node state in which only the position pair is ready: both position
roles hold a cached sample, both rate roles are still null.  Weights are the
source's default 0.5. -/
def sPoseReady : NodeState :=
  { last_lidar_msg_ := some exPoseA
  , last_gnss_msg_ := some exPoseB
  , last_ekf_twist_msg_ := none
  , last_filter_twist_msg_ := none
  , lidar_weight_ := 1/2
  , gnss_weight_ := 1/2
  , ekf_twist_weight_ := 1/2
  , filter_twist_weight_ := 1/2 }

/-- A node state in which only the rate pair is ready: both rate roles hold a
cached sample, both position roles are still null. -/
def sTwistReady : NodeState :=
  { last_lidar_msg_ := none
  , last_gnss_msg_ := none
  , last_ekf_twist_msg_ := some exTwistA
  , last_filter_twist_msg_ := some exTwistB
  , lidar_weight_ := 1/2
  , gnss_weight_ := 1/2
  , ekf_twist_weight_ := 1/2
  , filter_twist_weight_ := 1/2 }

end PoseFusionNode

namespace PoseFusionNode

open geometry_msgs

/-- C1: for every pair of position samples and every weight pair, the fused
pose's position is the componentwise weighted sum
`w1 * primary.position + w2 * secondary.position`; in particular with
primary position (1,0,0), secondary position (3,0,0) and weights (0.5,0.5)
the fused position is (2,0,0). -/
theorem fusePoses_position_weighted_sum :
    (∀ (w1 w2 now : ℚ) (a b : PoseWithCovarianceStamped),
      (fusePoses w1 w2 now a b).pose.pose.position.x =
        w1 * a.pose.pose.position.x + w2 * b.pose.pose.position.x ∧
      (fusePoses w1 w2 now a b).pose.pose.position.y =
        w1 * a.pose.pose.position.y + w2 * b.pose.pose.position.y ∧
      (fusePoses w1 w2 now a b).pose.pose.position.z =
        w1 * a.pose.pose.position.z + w2 * b.pose.pose.position.z) ∧
    (∀ (now : ℚ) (a b : PoseWithCovarianceStamped),
      a.pose.pose.position = ⟨1, 0, 0⟩ →
      b.pose.pose.position = ⟨3, 0, 0⟩ →
      (fusePoses (1/2) (1/2) now a b).pose.pose.position = ⟨2, 0, 0⟩) := by
  refine ⟨fun w1 w2 now a b => ⟨rfl, rfl, rfl⟩, fun now a b ha hb => ?_⟩
  simp [fusePoses, ha, hb]
  norm_num

/-- C1 witness: the theorem's second part applied to concrete samples with
positions (1,0,0) and (3,0,0). -/
theorem fusePoses_position_weighted_sum_witness :
    exPoseA.pose.pose.position = ⟨1, 0, 0⟩ ∧
    exPoseB.pose.pose.position = ⟨3, 0, 0⟩ ∧
    (fusePoses (1/2) (1/2) 0 exPoseA exPoseB).pose.pose.position = ⟨2, 0, 0⟩ :=
  ⟨rfl, rfl, fusePoses_position_weighted_sum.2 0 exPoseA exPoseB rfl rfl⟩

/-- C2: every one of the 36 fused covariance entries is the weighted sum of
the two input samples' entries at the same index, for the pose fusion and the
twist fusion alike. -/
theorem fuse_covariance_linear (w1 w2 now : ℚ) (i : Fin 36) :
    (∀ a b : PoseWithCovarianceStamped,
      (fusePoses w1 w2 now a b).pose.covariance i =
        w1 * a.pose.covariance i + w2 * b.pose.covariance i) ∧
    (∀ c d : TwistWithCovarianceStamped,
      (fuseTwists w1 w2 now c d).twist.covariance i =
        w1 * c.twist.covariance i + w2 * d.twist.covariance i) :=
  ⟨fun _ _ => rfl, fun _ _ => rfl⟩

/-- C3: the fused pose's orientation is the primary (LiDAR) sample's
orientation, whatever the weights and the secondary sample. -/
theorem fusePoses_orientation_primary (w1 w2 now : ℚ)
    (a b : PoseWithCovarianceStamped) :
    (fusePoses w1 w2 now a b).pose.pose.orientation = a.pose.pose.orientation :=
  rfl

/-- C6: the broadcast transform is a pure projection of the fused pose:
translation equals its position componentwise, rotation equals its orientation
componentwise, and the parent and child frame names are the constants "map"
and "base_link", independent of every input. -/
theorem broadcastTransform_projection (p : PoseWithCovarianceStamped) :
    (broadcastTransform p).transform.translation.x = p.pose.pose.position.x ∧
    (broadcastTransform p).transform.translation.y = p.pose.pose.position.y ∧
    (broadcastTransform p).transform.translation.z = p.pose.pose.position.z ∧
    (broadcastTransform p).transform.rotation.x = p.pose.pose.orientation.x ∧
    (broadcastTransform p).transform.rotation.y = p.pose.pose.orientation.y ∧
    (broadcastTransform p).transform.rotation.z = p.pose.pose.orientation.z ∧
    (broadcastTransform p).transform.rotation.w = p.pose.pose.orientation.w ∧
    (broadcastTransform p).header.frame_id = "map" ∧
    (broadcastTransform p).child_frame_id = "base_link" :=
  ⟨rfl, rfl, rfl, rfl, rfl, rfl, rfl, rfl, rfl⟩

/-- C7: with weights (1,0) the blended fields of the fused pose and fused
twist equal the primary sample's (the fused pose's orientation, always the
primary's, included); with weights (0,1) the blended fields equal the
secondary sample's.  The orientation is the primary's in both cases and the
twist's other five channels are zero in both cases (claims C3 and C8). -/
theorem fuse_identity_weights (now : ℚ) (a b : PoseWithCovarianceStamped)
    (c d : TwistWithCovarianceStamped) :
    ((fusePoses 1 0 now a b).pose.pose.position = a.pose.pose.position ∧
     (fusePoses 1 0 now a b).pose.pose.orientation = a.pose.pose.orientation ∧
     ∀ i, (fusePoses 1 0 now a b).pose.covariance i = a.pose.covariance i) ∧
    ((fusePoses 0 1 now a b).pose.pose.position = b.pose.pose.position ∧
     ∀ i, (fusePoses 0 1 now a b).pose.covariance i = b.pose.covariance i) ∧
    ((fuseTwists 1 0 now c d).twist.twist.angular.z = c.twist.twist.angular.z ∧
     ∀ i, (fuseTwists 1 0 now c d).twist.covariance i = c.twist.covariance i) ∧
    ((fuseTwists 0 1 now c d).twist.twist.angular.z = d.twist.twist.angular.z ∧
     ∀ i, (fuseTwists 0 1 now c d).twist.covariance i = d.twist.covariance i) := by
  refine ⟨⟨?_, rfl, fun i => ?_⟩, ⟨?_, fun i => ?_⟩, ⟨?_, fun i => ?_⟩, ⟨?_, fun i => ?_⟩⟩ <;>
    simp [fusePoses, fuseTwists]

/-- C8: every fused twist's angular z is the weighted blend of the two input
rate samples' angular z values, and the five other kinematic components are
exactly zero. -/
theorem fuseTwists_channels (w1 w2 now : ℚ)
    (c d : TwistWithCovarianceStamped) :
    (fuseTwists w1 w2 now c d).twist.twist.angular.z =
      w1 * c.twist.twist.angular.z + w2 * d.twist.twist.angular.z ∧
    (fuseTwists w1 w2 now c d).twist.twist.linear.x = 0 ∧
    (fuseTwists w1 w2 now c d).twist.twist.linear.y = 0 ∧
    (fuseTwists w1 w2 now c d).twist.twist.linear.z = 0 ∧
    (fuseTwists w1 w2 now c d).twist.twist.angular.x = 0 ∧
    (fuseTwists w1 w2 now c d).twist.twist.angular.y = 0 :=
  ⟨rfl, rfl, rfl, rfl, rfl, rfl⟩

/-- Helper: if the GNSS cache is null and the event is not a GNSS arrival, a
step keeps the GNSS cache null and emits no position-pair output. -/
theorem step_gnss_none (s : NodeState) (t : ℚ) (e : Event)
    (hg : s.last_gnss_msg_ = none) (he : e.isGnssPose = false) :
    (step s t e).1.last_gnss_msg_ = none ∧
    ∀ o ∈ (step s t e).2, o.isPosePairOutput = false := by
  cases e with
  | lidarPose m => simp [step, lidarPoseCallback, hg]
  | gnssPose m => simp [Event.isGnssPose] at he
  | ekfTwist m =>
      cases hf : s.last_filter_twist_msg_ <;>
        simp [step, ekfTwistCallback, hf, hg, NodeOutput.isPosePairOutput]
  | filterTwist m =>
      cases hk : s.last_ekf_twist_msg_ <;>
        simp [step, filterTwistCallback, hk, hg, NodeOutput.isPosePairOutput]

/-- Helper: if the LiDAR cache is null and the event is not a LiDAR arrival, a
step keeps the LiDAR cache null and emits no position-pair output. -/
theorem step_lidar_none (s : NodeState) (t : ℚ) (e : Event)
    (hl : s.last_lidar_msg_ = none) (he : e.isLidarPose = false) :
    (step s t e).1.last_lidar_msg_ = none ∧
    ∀ o ∈ (step s t e).2, o.isPosePairOutput = false := by
  cases e with
  | lidarPose m => simp [Event.isLidarPose] at he
  | gnssPose m => simp [step, gnssPoseCallback, hl]
  | ekfTwist m =>
      cases hf : s.last_filter_twist_msg_ <;>
        simp [step, ekfTwistCallback, hf, hl, NodeOutput.isPosePairOutput]
  | filterTwist m =>
      cases hk : s.last_ekf_twist_msg_ <;>
        simp [step, filterTwistCallback, hk, hl, NodeOutput.isPosePairOutput]

/-- Helper: if the EKF twist cache is null and the event is not an EKF twist
arrival, a step keeps it null and emits no rate-pair output. -/
theorem step_ekf_none (s : NodeState) (t : ℚ) (e : Event)
    (hk : s.last_ekf_twist_msg_ = none) (he : e.isEkfTwist = false) :
    (step s t e).1.last_ekf_twist_msg_ = none ∧
    ∀ o ∈ (step s t e).2, o.isTwistPairOutput = false := by
  cases e with
  | lidarPose m =>
      cases hg : s.last_gnss_msg_ <;>
        simp [step, lidarPoseCallback, hg, hk, NodeOutput.isTwistPairOutput]
  | gnssPose m =>
      cases hl : s.last_lidar_msg_ <;>
        simp [step, gnssPoseCallback, hl, hk, NodeOutput.isTwistPairOutput]
  | ekfTwist m => simp [Event.isEkfTwist] at he
  | filterTwist m => simp [step, filterTwistCallback, hk]

/-- Helper: if the filter twist cache is null and the event is not a filter
twist arrival, a step keeps it null and emits no rate-pair output. -/
theorem step_filter_none (s : NodeState) (t : ℚ) (e : Event)
    (hf : s.last_filter_twist_msg_ = none) (he : e.isFilterTwist = false) :
    (step s t e).1.last_filter_twist_msg_ = none ∧
    ∀ o ∈ (step s t e).2, o.isTwistPairOutput = false := by
  cases e with
  | lidarPose m =>
      cases hg : s.last_gnss_msg_ <;>
        simp [step, lidarPoseCallback, hg, hf, NodeOutput.isTwistPairOutput]
  | gnssPose m =>
      cases hl : s.last_lidar_msg_ <;>
        simp [step, gnssPoseCallback, hl, hf, NodeOutput.isTwistPairOutput]
  | ekfTwist m => simp [step, ekfTwistCallback, hf]
  | filterTwist m => simp [Event.isFilterTwist] at he

/-- Helper: a run whose trace never delivers a GNSS pose, started with a null
GNSS cache, emits no position-pair output. -/
theorem runEvents_gnss_none : ∀ (evs : List (ℚ × Event)) (s : NodeState),
    s.last_gnss_msg_ = none →
    (∀ p ∈ evs, (Prod.snd p).isGnssPose = false) →
    ∀ o ∈ (runEvents s evs).2, o.isPosePairOutput = false := by
  intro evs
  induction evs with
  | nil => intro s _ _ o ho; simp [runEvents] at ho
  | cons p rest ih =>
      obtain ⟨t, e⟩ := p
      intro s hg he o ho
      have h1 := step_gnss_none s t e hg (he _ (List.mem_cons_self _ _))
      have ho' : o ∈ (step s t e).2 ∨ o ∈ (runEvents (step s t e).1 rest).2 := by
        simpa [runEvents, List.mem_append] using ho
      cases ho' with
      | inl h => exact h1.2 o h
      | inr h =>
          exact ih (step s t e).1 h1.1
            (fun q hq => he q (List.mem_cons_of_mem _ hq)) o h

/-- Helper: a run whose trace never delivers a LiDAR pose, started with a null
LiDAR cache, emits no position-pair output. -/
theorem runEvents_lidar_none : ∀ (evs : List (ℚ × Event)) (s : NodeState),
    s.last_lidar_msg_ = none →
    (∀ p ∈ evs, (Prod.snd p).isLidarPose = false) →
    ∀ o ∈ (runEvents s evs).2, o.isPosePairOutput = false := by
  intro evs
  induction evs with
  | nil => intro s _ _ o ho; simp [runEvents] at ho
  | cons p rest ih =>
      obtain ⟨t, e⟩ := p
      intro s hl he o ho
      have h1 := step_lidar_none s t e hl (he _ (List.mem_cons_self _ _))
      have ho' : o ∈ (step s t e).2 ∨ o ∈ (runEvents (step s t e).1 rest).2 := by
        simpa [runEvents, List.mem_append] using ho
      cases ho' with
      | inl h => exact h1.2 o h
      | inr h =>
          exact ih (step s t e).1 h1.1
            (fun q hq => he q (List.mem_cons_of_mem _ hq)) o h

/-- Helper: a run whose trace never delivers an EKF twist, started with a null
EKF twist cache, emits no rate-pair output. -/
theorem runEvents_ekf_none : ∀ (evs : List (ℚ × Event)) (s : NodeState),
    s.last_ekf_twist_msg_ = none →
    (∀ p ∈ evs, (Prod.snd p).isEkfTwist = false) →
    ∀ o ∈ (runEvents s evs).2, o.isTwistPairOutput = false := by
  intro evs
  induction evs with
  | nil => intro s _ _ o ho; simp [runEvents] at ho
  | cons p rest ih =>
      obtain ⟨t, e⟩ := p
      intro s hk he o ho
      have h1 := step_ekf_none s t e hk (he _ (List.mem_cons_self _ _))
      have ho' : o ∈ (step s t e).2 ∨ o ∈ (runEvents (step s t e).1 rest).2 := by
        simpa [runEvents, List.mem_append] using ho
      cases ho' with
      | inl h => exact h1.2 o h
      | inr h =>
          exact ih (step s t e).1 h1.1
            (fun q hq => he q (List.mem_cons_of_mem _ hq)) o h

/-- Helper: a run whose trace never delivers a filter twist, started with a
null filter twist cache, emits no rate-pair output. -/
theorem runEvents_filter_none : ∀ (evs : List (ℚ × Event)) (s : NodeState),
    s.last_filter_twist_msg_ = none →
    (∀ p ∈ evs, (Prod.snd p).isFilterTwist = false) →
    ∀ o ∈ (runEvents s evs).2, o.isTwistPairOutput = false := by
  intro evs
  induction evs with
  | nil => intro s _ _ o ho; simp [runEvents] at ho
  | cons p rest ih =>
      obtain ⟨t, e⟩ := p
      intro s hf he o ho
      have h1 := step_filter_none s t e hf (he _ (List.mem_cons_self _ _))
      have ho' : o ∈ (step s t e).2 ∨ o ∈ (runEvents (step s t e).1 rest).2 := by
        simpa [runEvents, List.mem_append] using ho
      cases ho' with
      | inl h => exact h1.2 o h
      | inr h =>
          exact ih (step s t e).1 h1.1
            (fun q hq => he q (List.mem_cons_of_mem _ hq)) o h

/-- C4: starting from the constructed node (all caches null), a trace of
arrivals touching only one role of a pair produces no output of that pair:
no GNSS arrival means no position-pair output, no LiDAR arrival means no
position-pair output, and likewise for the two rate roles. -/
theorem no_output_until_both_roles (w1 w2 w3 w4 : ℚ) (evs : List (ℚ × Event)) :
    ((∀ p ∈ evs, (Prod.snd p).isGnssPose = false) →
      ∀ o ∈ (runEvents (initState w1 w2 w3 w4) evs).2, o.isPosePairOutput = false) ∧
    ((∀ p ∈ evs, (Prod.snd p).isLidarPose = false) →
      ∀ o ∈ (runEvents (initState w1 w2 w3 w4) evs).2, o.isPosePairOutput = false) ∧
    ((∀ p ∈ evs, (Prod.snd p).isEkfTwist = false) →
      ∀ o ∈ (runEvents (initState w1 w2 w3 w4) evs).2, o.isTwistPairOutput = false) ∧
    ((∀ p ∈ evs, (Prod.snd p).isFilterTwist = false) →
      ∀ o ∈ (runEvents (initState w1 w2 w3 w4) evs).2, o.isTwistPairOutput = false) :=
  ⟨fun h => runEvents_gnss_none evs _ rfl h,
   fun h => runEvents_lidar_none evs _ rfl h,
   fun h => runEvents_ekf_none evs _ rfl h,
   fun h => runEvents_filter_none evs _ rfl h⟩

/-- C4 witness: two LiDAR-only arrivals from the fresh node produce no
position-pair output. -/
theorem no_output_until_both_roles_witness :
    (∀ p ∈ [((0 : ℚ), Event.lidarPose exPoseA), ((1 : ℚ), Event.lidarPose exPoseB)],
      (Prod.snd p).isGnssPose = false) ∧
    (∀ o ∈ (runEvents (initState (1/2) (1/2) (1/2) (1/2))
        [((0 : ℚ), Event.lidarPose exPoseA), ((1 : ℚ), Event.lidarPose exPoseB)]).2,
      o.isPosePairOutput = false) :=
  ⟨by decide,
   (no_output_until_both_roles (1/2) (1/2) (1/2) (1/2)
     [((0 : ℚ), Event.lidarPose exPoseA), ((1 : ℚ), Event.lidarPose exPoseB)]).1
     (by decide)⟩

/-- Helper: a step never clears a cached sample: every role slot that holds a
value before the step still holds one after. -/
theorem step_state_some (s : NodeState) (t : ℚ) (e : Event) :
    (s.last_lidar_msg_.isSome = true → (step s t e).1.last_lidar_msg_.isSome = true) ∧
    (s.last_gnss_msg_.isSome = true → (step s t e).1.last_gnss_msg_.isSome = true) ∧
    (s.last_ekf_twist_msg_.isSome = true → (step s t e).1.last_ekf_twist_msg_.isSome = true) ∧
    (s.last_filter_twist_msg_.isSome = true → (step s t e).1.last_filter_twist_msg_.isSome = true) := by
  cases e with
  | lidarPose m => cases hg : s.last_gnss_msg_ <;> simp [step, lidarPoseCallback, hg]
  | gnssPose m => cases hl : s.last_lidar_msg_ <;> simp [step, gnssPoseCallback, hl]
  | ekfTwist m => cases hf : s.last_filter_twist_msg_ <;> simp [step, ekfTwistCallback, hf]
  | filterTwist m => cases hk : s.last_ekf_twist_msg_ <;> simp [step, filterTwistCallback, hk]

/-- Helper: in a state where both position roles hold a sample (the rate
caches are unconstrained), one step emits exactly one fused-pose publication
when the event is a position-pair arrival and none otherwise. -/
theorem step_finalPose_count (s : NodeState) (t : ℚ) (e : Event)
    (h1 : s.last_lidar_msg_.isSome = true) (h2 : s.last_gnss_msg_.isSome = true) :
    (step s t e).2.countP NodeOutput.isFinalPose =
      if e.isPosePairEvent then 1 else 0 := by
  cases e with
  | lidarPose m =>
      obtain ⟨g, hg⟩ := Option.isSome_iff_exists.mp h2
      simp [step, lidarPoseCallback, hg, Event.isPosePairEvent,
        Event.isLidarPose, Event.isGnssPose,
        List.countP_cons, NodeOutput.isFinalPose]
  | gnssPose m =>
      obtain ⟨l, hl⟩ := Option.isSome_iff_exists.mp h1
      simp [step, gnssPoseCallback, hl, Event.isPosePairEvent,
        Event.isLidarPose, Event.isGnssPose,
        List.countP_cons, NodeOutput.isFinalPose]
  | ekfTwist m =>
      cases hf : s.last_filter_twist_msg_ <;>
        simp [step, ekfTwistCallback, hf, Event.isPosePairEvent,
          Event.isLidarPose, Event.isGnssPose,
          List.countP_cons, NodeOutput.isFinalPose]
  | filterTwist m =>
      cases hk : s.last_ekf_twist_msg_ <;>
        simp [step, filterTwistCallback, hk, Event.isPosePairEvent,
          Event.isLidarPose, Event.isGnssPose,
          List.countP_cons, NodeOutput.isFinalPose]

/-- Helper: in a state where both rate roles hold a sample (the position
caches are unconstrained), one step emits exactly one fused-twist publication
when the event is a rate-pair arrival and none otherwise. -/
theorem step_fusedTwist_count (s : NodeState) (t : ℚ) (e : Event)
    (h3 : s.last_ekf_twist_msg_.isSome = true)
    (h4 : s.last_filter_twist_msg_.isSome = true) :
    (step s t e).2.countP NodeOutput.isFusedTwist =
      if e.isTwistPairEvent then 1 else 0 := by
  cases e with
  | lidarPose m =>
      cases hg : s.last_gnss_msg_ <;>
        simp [step, lidarPoseCallback, hg, Event.isTwistPairEvent,
          Event.isEkfTwist, Event.isFilterTwist,
          List.countP_cons, NodeOutput.isFusedTwist]
  | gnssPose m =>
      cases hl : s.last_lidar_msg_ <;>
        simp [step, gnssPoseCallback, hl, Event.isTwistPairEvent,
          Event.isEkfTwist, Event.isFilterTwist,
          List.countP_cons, NodeOutput.isFusedTwist]
  | ekfTwist m =>
      obtain ⟨f, hf⟩ := Option.isSome_iff_exists.mp h4
      simp [step, ekfTwistCallback, hf, Event.isTwistPairEvent,
        Event.isEkfTwist, Event.isFilterTwist,
        List.countP_cons, NodeOutput.isFusedTwist]
  | filterTwist m =>
      obtain ⟨k, hk⟩ := Option.isSome_iff_exists.mp h3
      simp [step, filterTwistCallback, hk, Event.isTwistPairEvent,
        Event.isEkfTwist, Event.isFilterTwist,
        List.countP_cons, NodeOutput.isFusedTwist]

/-- Helper: from a state where both position roles hold a sample, a run of
arrivals emits exactly as many fused-pose publications as there are
position-pair arrivals, whatever the rate caches hold. -/
theorem runEvents_finalPose_count : ∀ (evs : List (ℚ × Event)) (s : NodeState),
    s.last_lidar_msg_.isSome = true → s.last_gnss_msg_.isSome = true →
    (runEvents s evs).2.countP NodeOutput.isFinalPose =
      evs.countP (fun p => (Prod.snd p).isPosePairEvent) := by
  intro evs
  induction evs with
  | nil => intro s _ _; simp [runEvents]
  | cons p rest ih =>
      obtain ⟨t, e⟩ := p
      intro s h1 h2
      have hs := step_state_some s t e
      have hc := step_finalPose_count s t e h1 h2
      have ihr := ih (step s t e).1 (hs.1 h1) (hs.2.1 h2)
      simp [runEvents, List.countP_append, List.countP_cons, hc, ihr, Nat.add_comm]

/-- Helper: from a state where both rate roles hold a sample, a run of
arrivals emits exactly as many fused-twist publications as there are
rate-pair arrivals, whatever the position caches hold. -/
theorem runEvents_fusedTwist_count : ∀ (evs : List (ℚ × Event)) (s : NodeState),
    s.last_ekf_twist_msg_.isSome = true → s.last_filter_twist_msg_.isSome = true →
    (runEvents s evs).2.countP NodeOutput.isFusedTwist =
      evs.countP (fun p => (Prod.snd p).isTwistPairEvent) := by
  intro evs
  induction evs with
  | nil => intro s _ _; simp [runEvents]
  | cons p rest ih =>
      obtain ⟨t, e⟩ := p
      intro s h3 h4
      have hs := step_state_some s t e
      have hc := step_fusedTwist_count s t e h3 h4
      have ihr := ih (step s t e).1 (hs.2.2.1 h3) (hs.2.2.2 h4)
      simp [runEvents, List.countP_append, List.countP_cons, hc, ihr, Nat.add_comm]

/-- C5: per pair — once both roles of the position pair hold a cached sample
(the rate caches may be in any state, including empty), each arrival on either
position role triggers exactly one pose fusion and emission, combining the
newly arrived message with the cached counterpart (however old it is), and
over any trace the number of fused-pose emissions equals the number of
position-pair arrivals; symmetrically, once both roles of the rate pair hold a
cached sample (the position caches unconstrained), each rate arrival triggers
exactly one twist fusion with the cached counterpart, and fused-twist
emissions equal rate-pair arrivals. -/
theorem ready_every_arrival_fuses (s : NodeState) (now : ℚ) :
    (∀ l g : PoseWithCovarianceStamped,
      s.last_lidar_msg_ = some l → s.last_gnss_msg_ = some g →
      (∀ m, lidarPoseCallback s now m =
        ({ s with last_lidar_msg_ := some m },
         [NodeOutput.finalPose (fusePoses s.lidar_weight_ s.gnss_weight_ now m g),
          NodeOutput.tfTransform
            (broadcastTransform (fusePoses s.lidar_weight_ s.gnss_weight_ now m g))])) ∧
      (∀ m, gnssPoseCallback s now m =
        ({ s with last_gnss_msg_ := some m },
         [NodeOutput.finalPose (fusePoses s.lidar_weight_ s.gnss_weight_ now l m),
          NodeOutput.tfTransform
            (broadcastTransform (fusePoses s.lidar_weight_ s.gnss_weight_ now l m))])) ∧
      (∀ evs : List (ℚ × Event),
        (runEvents s evs).2.countP NodeOutput.isFinalPose =
          evs.countP (fun p => (Prod.snd p).isPosePairEvent))) ∧
    (∀ ek ft : TwistWithCovarianceStamped,
      s.last_ekf_twist_msg_ = some ek → s.last_filter_twist_msg_ = some ft →
      (∀ m, ekfTwistCallback s now m =
        ({ s with last_ekf_twist_msg_ := some m },
         [NodeOutput.fusedTwist
           (fuseTwists s.ekf_twist_weight_ s.filter_twist_weight_ now m ft)])) ∧
      (∀ m, filterTwistCallback s now m =
        ({ s with last_filter_twist_msg_ := some m },
         [NodeOutput.fusedTwist
           (fuseTwists s.ekf_twist_weight_ s.filter_twist_weight_ now ek m)])) ∧
      (∀ evs : List (ℚ × Event),
        (runEvents s evs).2.countP NodeOutput.isFusedTwist =
          evs.countP (fun p => (Prod.snd p).isTwistPairEvent))) := by
  refine ⟨fun l g hl hg => ⟨fun m => ?_, fun m => ?_, fun evs => ?_⟩,
          fun ek ft hk hf => ⟨fun m => ?_, fun m => ?_, fun evs => ?_⟩⟩
  · simp [lidarPoseCallback, hg]
  · simp [gnssPoseCallback, hl]
  · exact runEvents_finalPose_count evs s (by simp [hl]) (by simp [hg])
  · simp [ekfTwistCallback, hf]
  · simp [filterTwistCallback, hk]
  · exact runEvents_fusedTwist_count evs s (by simp [hk]) (by simp [hf])

/-- C5 witness: in `sPoseReady`, where only the position pair is ready (both
rate caches still null), one further LiDAR arrival yields exactly one fused
pose; in `sTwistReady`, where only the rate pair is ready (both position
caches still null), one further EKF twist arrival yields exactly one fused
twist. -/
theorem ready_every_arrival_fuses_witness :
    (sPoseReady.last_lidar_msg_ = some exPoseA ∧
     sPoseReady.last_gnss_msg_ = some exPoseB ∧
     (runEvents sPoseReady [((1 : ℚ), Event.lidarPose exPoseB)]).2.countP
        NodeOutput.isFinalPose =
       [((1 : ℚ), Event.lidarPose exPoseB)].countP
         (fun p => (Prod.snd p).isPosePairEvent)) ∧
    (sTwistReady.last_ekf_twist_msg_ = some exTwistA ∧
     sTwistReady.last_filter_twist_msg_ = some exTwistB ∧
     (runEvents sTwistReady [((2 : ℚ), Event.ekfTwist exTwistB)]).2.countP
        NodeOutput.isFusedTwist =
       [((2 : ℚ), Event.ekfTwist exTwistB)].countP
         (fun p => (Prod.snd p).isTwistPairEvent)) :=
  ⟨⟨rfl, rfl,
    ((ready_every_arrival_fuses sPoseReady 0).1 exPoseA exPoseB rfl rfl).2.2
      [((1 : ℚ), Event.lidarPose exPoseB)]⟩,
   ⟨rfl, rfl,
    ((ready_every_arrival_fuses sTwistReady 0).2 exTwistA exTwistB rfl rfl).2.2
      [((2 : ℚ), Event.ekfTwist exTwistB)]⟩⟩

/-- C9: the fused pose's and fused twist's header stamp is the clock reading
`now` at fusion time, whatever the input samples' own stamps, and the
broadcast transform reuses the fused pose's stamp. -/
theorem fuse_header_stamp_now (w1 w2 now : ℚ)
    (a b : PoseWithCovarianceStamped) (c d : TwistWithCovarianceStamped) :
    (fusePoses w1 w2 now a b).header.stamp = now ∧
    (fuseTwists w1 w2 now c d).header.stamp = now ∧
    (∀ p : PoseWithCovarianceStamped,
      (broadcastTransform p).header.stamp = p.header.stamp) ∧
    (broadcastTransform (fusePoses w1 w2 now a b)).header.stamp = now :=
  ⟨rfl, rfl, fun _ => rfl, rfl⟩

end PoseFusionNode
